import Mathlib

/-!
Shallow embedding of src/pyop2/op2.py (PyOP2 API sketch) and verification of
the frozen claims about it.

Modelling conventions:
* Python assertion failures and attribute-lookup failures are modelled by an
  explicit error type; every fallible operation returns an Except value.
* Python int is unbounded, modelled as Int.
* Python truthiness is modelled explicitly where the source relies on it
  (None and 0 are falsy; every Access, Map and Set object is truthy).
* Python membership tests such as access in self._modes use object equality,
  which defaults to identity.  The four canonical Access constants READ,
  WRITE, RW and INC carry pairwise distinct mode strings, so on these
  constants (the only values the claims ever pass) mode-string equality
  coincides with identity; the model compares Access values by mode string.
* Set objects are compared in the source by identity (default ==).  The model
  compares them structurally; all comparisons the claims exercise are either
  on the very same construction or never reached (see Map.getSet below).
-/

namespace PyOP2

/-- Errors raised by the Python source: assert statements raise
AssertionError with a message, and looking up a missing attribute raises
AttributeError naming the attribute. -/
inductive PyErr where
  | assertionError (msg : String) : PyErr
  | attributeError (attr : String) : PyErr
deriving DecidableEq, Repr

/-- An OP2 access descriptor (class Access): holds the mode string checked by
its constructor. -/
structure Access where
  mode : String
deriving DecidableEq, BEq, Repr

/-- Access._modes, the list of admissible mode strings. -/
def Access.modes : List String := ["READ", "WRITE", "RW", "INC"]

/-- Access.__init__: asserts the mode string is one of Access._modes. -/
def Access.init (mode : String) : Except PyErr Access :=
  if Access.modes.contains mode then
    .ok ⟨mode⟩
  else
    .error (.assertionError "Mode needs to be one of READ, WRITE, RW, INC")

/-- Access.__str__. -/
def Access.str (a : Access) : String := "OP2 Access: " ++ a.mode

/-- Module-level constant READ = Access("READ"). -/
def READ : Access := ⟨"READ"⟩

/-- Module-level constant WRITE = Access("WRITE"). -/
def WRITE : Access := ⟨"WRITE"⟩

/-- Module-level constant RW = Access("RW"). -/
def RW : Access := ⟨"RW"⟩

/-- Module-level constant INC = Access("INC"). -/
def INC : Access := ⟨"INC"⟩

/-- An OP2 Set (class Set): Set.__init__ asserts size is an int and name a
str (enforced here by the Lean types) and stores them verbatim.  It performs
no sign check on size. -/
structure Set where
  size : Int
  name : String
deriving DecidableEq, BEq, Repr

/-- Set.__init__ as a function: the isinstance asserts are discharged by the
argument types; the fields are stored unchanged. -/
def Set.init (size : Int) (name : String) : Set := ⟨size, name⟩

/-- Set.__str__. -/
def Set.str (s : Set) : String :=
  "OP2 Set: " ++ s.name ++ " with size " ++ toString s.size

/-- An OP2 Map (class Map): Map.__init__ stores _from, _to, _dim, _values,
_name and sets _index = None.  Note there is no _set attribute. -/
structure Map where
  frm : Set
  toSet : Set
  dim : Int
  values : List Int
  name : String
  index : Option Int
deriving DecidableEq, BEq, Repr

/-- Map.__init__: type asserts are discharged by the Lean types; _index
starts out None. -/
def Map.init (frm toSet : Set) (dim : Int) (values : List Int)
    (name : String) : Map :=
  ⟨frm, toSet, dim, values, name, none⟩

/-- Python attribute lookup map._set.  Map.__init__ assigns only _from, _to,
_dim, _values, _name and _index, and nothing else in the class defines _set,
so this lookup always raises AttributeError; modelled as none. -/
def Map.getSet (_ : Map) : Option Set := none

/-- Map.indexed: asserts the map has not been indexed yet, then that the
index lies in [0, dim), and returns a copy with _index set. -/
def Map.indexed (m : Map) (index : Int) : Except PyErr Map :=
  if m.index.isSome then
    .error (.assertionError "Map has already been indexed")
  else if 0 ≤ index ∧ index < m.dim then
    .ok { m with index := some index }
  else
    .error (.assertionError "Index must be in interval [0,dim-1]")

/-- Map.__str__: the component suffix is emitted only when self._index is
truthy, i.e. not None and nonzero — index 0 produces no suffix. -/
def Map.str (m : Map) : String :=
  let indexedSuffix :=
    match m.index with
    | some i => if i ≠ 0 then " and component " ++ toString i else ""
    | none => ""
  "OP2 Map: " ++ m.name ++ " from (" ++ Set.str m.frm ++ ") to (" ++
    Set.str m.toSet ++ ") with dim " ++ toString m.dim ++ indexedSuffix

/-- OP2 vector data (class Dat): Dat.__init__ stores _set, _dim, _datatype,
_data, _name and initialises _map = None, _access = None. -/
structure Dat where
  set : Set
  dim : Int
  datatype : String
  data : List Int
  name : String
  map : Option Map
  access : Option Access
deriving DecidableEq, BEq, Repr

/-- Dat.__init__: type asserts discharged by the Lean types; _map and
_access start out None. -/
def Dat.init (set : Set) (dim : Int) (datatype : String) (data : List Int)
    (name : String) : Dat :=
  ⟨set, dim, datatype, data, name, none, none⟩

/-- Dat._modes = [READ, WRITE, RW, INC]. -/
def Dat.modes : List Access := [READ, WRITE, RW, INC]

/-- Dat.__call__: asserts the access descriptor is one of Dat._modes, then
evaluates the assert condition map._set == self._set.  The attribute lookup
map._set fails (Map has no _set attribute, see Map.getSet), so this branch
raises AttributeError; the set comparison and the copy are dead code after
it, but are kept for fidelity to the source text. -/
def Dat.call (d : Dat) (m : Map) (access : Access) : Except PyErr Dat :=
  if ¬ Dat.modes.contains access then
    .error (.assertionError "Acess descriptor must be one of READ, WRITE, RW, INC")
  else
    match Map.getSet m with
    | none => .error (.attributeError "_set")
    | some s =>
        if s == d.set then
          .ok { d with map := some m, access := some access }
        else
          .error (.assertionError ("Invalid data set for map " ++ m.name))

/-- Dat.__str__: the association suffix is emitted only when both _map and
_access are truthy; Map and Access objects are always truthy, so this is
exactly when both are not None. -/
def Dat.str (d : Dat) : String :=
  let call :=
    match d.map, d.access with
    | some m, some a =>
        " associated with (" ++ Map.str m ++ ") in mode " ++ Access.str a
    | _, _ => ""
  "OP2 Dat: " ++ d.name ++ " on (" ++ Set.str d.set ++ ") with dim " ++
    toString d.dim ++ " and datatype " ++ d.datatype ++ call

/-- OP2 matrix data (class Mat): Mat.__init__ coerces sets through
as_tuple(sets, Set, 2), i.e. to exactly two Sets, stores _dim, _datatype,
_name and initialises _maps = None, _access = None. -/
structure Mat where
  sets : Set × Set
  dim : Int
  datatype : String
  name : String
  maps : Option (List Map)
  access : Option Access
deriving DecidableEq, BEq, Repr

/-- Mat.__init__ with the two sets already coerced to a pair. -/
def Mat.init (sets : Set × Set) (dim : Int) (datatype : String)
    (name : String) : Mat :=
  ⟨sets, dim, datatype, name, none, none⟩

/-- Mat._modes = [READ, WRITE, RW, INC]. -/
def Mat.modes : List Access := [READ, WRITE, RW, INC]

/-- The loop body of Mat.__call__: for map, set in zip(maps, self._sets), it
asserts map._set == set.  zip truncates to the shorter sequence, so with an
empty maps sequence no check runs at all; with a nonempty one the first
iteration looks up map._set, which raises AttributeError (see Map.getSet). -/
def Mat.checkMaps : List Map → List Set → Except PyErr Unit
  | m :: ms, s :: ss =>
      (match Map.getSet m with
      | none => .error (.attributeError "_set")
      | some mset =>
          if mset == s then Mat.checkMaps ms ss
          else .error (.assertionError ("Invalid set for map " ++ m.name)))
  | _, _ => .ok ()

/-- Mat.__call__: asserts the access descriptor is one of Mat._modes, runs
the zip loop of set checks, then returns a copy with _maps and _access
set. -/
def Mat.call (mt : Mat) (maps : List Map) (access : Access) :
    Except PyErr Mat :=
  if ¬ Mat.modes.contains access then
    .error (.assertionError "Acess descriptor must be one of READ, WRITE, RW, INC")
  else
    match Mat.checkMaps maps [mt.sets.1, mt.sets.2] with
    | .error e => .error e
    | .ok _ => .ok { mt with maps := some maps, access := some access }

/-- An OP2 global value (class Global): Global.__init__ stores _val and
_name and initialises _access = None.  There is no map field. -/
structure Global where
  name : String
  val : Int
  access : Option Access
deriving DecidableEq, BEq, Repr

/-- Global.__init__ (the source defaults val to 0 when omitted). -/
def Global.init (name : String) (val : Int) : Global := ⟨name, val, none⟩

/-- Global._modes = [READ, INC]. -/
def Global.modes : List Access := [READ, INC]

/-- Global.__call__: asserts the access descriptor is one of Global._modes
and returns a copy with _access set.  No map is attached. -/
def Global.call (g : Global) (access : Access) : Except PyErr Global :=
  if ¬ Global.modes.contains access then
    .error (.assertionError "Acess descriptor must be one of READ, INC")
  else
    .ok { g with access := some access }

/-- Global.__str__: the mode suffix is emitted when _access is truthy;
Access objects are always truthy, so exactly when _access is not None. -/
def Global.str (g : Global) : String :=
  let call :=
    match g.access with
    | some a => " in mode " ++ Access.str a
    | none => ""
  "OP2 Global Argument: " ++ g.name ++ " with value " ++ toString g.val ++
    call

/-- The argument of as_tuple: Python distinguishes None, an iterable (tuple
of its items is taken) and a non-iterable scalar (tuple(item) raises
TypeError). -/
inductive Item (α : Type) where
  | noneV : Item α
  | scalar (x : α) : Item α
  | iterable (xs : List α) : Item α
deriving DecidableEq, Repr

/-- Python (length or 1): None and 0 are falsy and give 1; any other int
gives itself. -/
def lengthOr1 (length : Option Int) : Int :=
  match length with
  | some n => if n ≠ 0 then n else 1
  | none => 1

/-- Python truthiness of the length argument: None and 0 are falsy. -/
def lengthTruthy (length : Option Int) : Bool :=
  match length with
  | some n => n ≠ 0
  | none => false

/-- as_tuple(item, type, length): None gives []; an iterable is converted to
the tuple of its items; a scalar x gives (x,) * (length or 1), where a
nonpositive repeat count yields the empty tuple.  Then, when length is
truthy, it asserts the coerced tuple has exactly that length, and when type
is given it asserts every item satisfies it. -/
def as_tuple {α : Type} (item : Item α) (type : Option (α → Bool))
    (length : Option Int) : Except PyErr (List α) :=
  let t : List α :=
    match item with
    | .noneV => []
    | .iterable xs => xs
    | .scalar x => List.replicate (lengthOr1 length).toNat x
  if lengthTruthy length ∧ (t.length : Int) ≠ length.getD 0 then
    .error (.assertionError "Tuple needs to be of length")
  else if (match type with | some p => ! t.all p | none => false) = true then
    .error (.assertionError "Items need to be of type")
  else
    .ok t

/-!
Heap-style renderings of the binding and indexing operations, used to state
the no-mutation (frame) property.  Objects live in an allocation-ordered
store (a list indexed by address); the source pattern arg = copy(self);
arg.field = value; return arg allocates a fresh object and performs its
field assignments only on that fresh copy, so in heap form a successful
call appends one object holding the bound fields at the fresh address
h.length and leaves every existing address, the receiver address r
included, untouched.  A failing assert raises before any allocation or
assignment, leaving the heap unchanged (no heap is returned). -/

/-- Dat.__call__ acting on a heap of Dat objects at receiver address r. -/
def Dat.callH (h : List Dat) (r : Nat) (m : Map) (access : Access) :
    Except PyErr (List Dat × Nat) :=
  match h[r]? with
  | none => .error (.attributeError "invalid object reference")
  | some d =>
      match Dat.call d m access with
      | .error e => .error e
      | .ok arg => .ok (h ++ [arg], h.length)

/-- Mat.__call__ acting on a heap of Mat objects at receiver address r. -/
def Mat.callH (h : List Mat) (r : Nat) (maps : List Map) (access : Access) :
    Except PyErr (List Mat × Nat) :=
  match h[r]? with
  | none => .error (.attributeError "invalid object reference")
  | some mt =>
      match Mat.call mt maps access with
      | .error e => .error e
      | .ok arg => .ok (h ++ [arg], h.length)

/-- Global.__call__ acting on a heap of Global objects at receiver
address r. -/
def Global.callH (h : List Global) (r : Nat) (access : Access) :
    Except PyErr (List Global × Nat) :=
  match h[r]? with
  | none => .error (.attributeError "invalid object reference")
  | some g =>
      match Global.call g access with
      | .error e => .error e
      | .ok arg => .ok (h ++ [arg], h.length)

/-- Map.indexed acting on a heap of Map objects at receiver address r. -/
def Map.indexedH (h : List Map) (r : Nat) (index : Int) :
    Except PyErr (List Map × Nat) :=
  match h[r]? with
  | none => .error (.attributeError "invalid object reference")
  | some m =>
      match Map.indexed m index with
      | .error e => .error e
      | .ok indexed => .ok (h ++ [indexed], h.length)

/-! Concrete example objects, mirroring the scenario of the specification:
a Set of nodes, a second Set, a Map on the node Set, a Dat on the node Set,
a Mat over the pair and a Global. -/

/-- A concrete Set. -/
def exSet : Set := Set.init 5 "nodes"

/-- A second concrete Set, distinct from exSet. -/
def exSet2 : Set := Set.init 4 "cells"

/-- A concrete unindexed Map with from-Set exSet and dim 2. -/
def exMap : Map := Map.init exSet exSet 2 [] "m"

/-- A concrete Map whose from-Set is exSet2, not exSet. -/
def exMapWrongFrom : Map := Map.init exSet2 exSet 2 [] "mw"

/-- A concrete Dat declared on exSet. -/
def exDat : Dat := Dat.init exSet 1 "double" [] "d"

/-- A concrete Mat declared on (exSet, exSet2). -/
def exMat : Mat := Mat.init (exSet, exSet2) 1 "double" "mat"

/-- A concrete Global. -/
def exGlobal : Global := Global.init "g" 0

/-- C1: the claim says that binding a Dat with a Map whose from-Set is the
Dat Set and a canonical access mode always succeeds.  In the code it never
does: Dat.__call__ evaluates map._set, but Map.__init__ stores the from-Set
in the attribute _from and never assigns _set, so for every Dat, every Map
(matching from-Set or not) and every canonical access mode the call raises
AttributeError before reaching the copy.  The specification (its concrete
scenario has d(m, READ) succeed) and the assert message of the code itself
(which reports map set names) show the intent; the code is a slip. -/
theorem dat_call_raises_attribute_error (d : Dat) (m : Map) (a : Access)
    (h : Dat.modes.contains a = true) :
    Dat.call d m a = .error (.attributeError "_set") := by
  simp [Dat.call, h, Map.getSet]

/-- Witness for C1 at the concrete scenario objects with access READ. -/
theorem dat_call_raises_attribute_error_witness :
    Dat.call exDat exMap READ = .error (.attributeError "_set") :=
  dat_call_raises_attribute_error exDat exMap READ (by decide)

/-- C2: the claim says a from-Set mismatch fails with a SetMismatchError
naming the offending map and the expected versus actual set names, and that
no other kind of failure occurs.  In the code the mismatch check is never
reached: the lookup map._set raises AttributeError first (Map stores the
from-Set as _from), for Dat and for Mat alike, so the failure that occurs is
an AttributeError, not the assertion the spec describes.  This theorem
evaluates both calls at concrete mismatched inputs. -/
theorem set_mismatch_raises_attribute_error :
    Dat.call exDat exMapWrongFrom READ = .error (.attributeError "_set") ∧
    Mat.call exMat [exMapWrongFrom, exMapWrongFrom] READ =
      .error (.attributeError "_set") :=
  ⟨rfl, rfl⟩

/-- C4 counterexample: the claim says the Set constructor never produces a
Set whose size is negative, but Set.__init__ only checks that size is an
int, so constructing with size -1 succeeds and stores the negative size. -/
theorem set_negative_size_counterexample :
    (Set.init (-1) "x").size = -1 ∧ (Set.init (-1) "x").size < 0 := by
  exact ⟨rfl, by decide⟩

/-- C4 amended: every successfully constructed Set stores exactly the
integer size (and name) it was given; the constructor checks only the types
of its arguments and accepts negative sizes. -/
theorem set_init_stores_fields (z : Int) (s : String) :
    (Set.init z s).size = z ∧ (Set.init z s).name = s :=
  ⟨rfl, rfl⟩

/-- C6: binding a Global to the canonical READ or INC access mode succeeds
and returns a bound copy whose access field holds that mode while name and
val are unchanged (a Global has no map field to attach); binding to WRITE
or RW fails with the assertion of Global.__call__. -/
theorem global_call_modes (g : Global) :
    Global.call g READ = .ok { g with access := some READ } ∧
    Global.call g INC = .ok { g with access := some INC } ∧
    Global.call g WRITE =
      .error (.assertionError "Acess descriptor must be one of READ, INC") ∧
    Global.call g RW =
      .error (.assertionError "Acess descriptor must be one of READ, INC") := by
  refine ⟨?_, ?_, ?_, ?_⟩ <;> rfl

/-- C9: constructing Access with a mode string in Access._modes succeeds and
the string rendering of the result contains the mode string; constructing
with any other string fails. -/
theorem access_init_spec (m : String) :
    (Access.modes.contains m = true →
      Access.init m = .ok ⟨m⟩ ∧ ∃ p q, Access.str ⟨m⟩ = p ++ m ++ q) ∧
    (Access.modes.contains m = false →
      ∃ e, Access.init m = .error e) := by
  constructor
  · intro h
    refine ⟨by simp [Access.init]; simpa using h, "OP2 Access: ", "", ?_⟩
    simp [Access.str]
  · intro h
    exact ⟨.assertionError "Mode needs to be one of READ, WRITE, RW, INC",
      by simp [Access.init]; simpa using h⟩

/-- Witness for C9 at the mode string READ and the invalid string FOO. -/
theorem access_init_spec_witness :
    (Access.init "READ" = .ok ⟨"READ"⟩ ∧
      ∃ p q, Access.str ⟨"READ"⟩ = p ++ "READ" ++ q) ∧
    (∃ e, Access.init "FOO" = .error e) :=
  ⟨(access_init_spec "READ").1 (by decide),
   (access_init_spec "FOO").2 (by decide)⟩

/-- C10: Mat.__call__ does not check that exactly two maps are supplied:
with an empty maps sequence the zip loop runs zero iterations, so every
set-compatibility check is skipped and a bound copy is returned whose maps
field is the empty sequence and whose other fields are unchanged. -/
theorem mat_call_empty_maps (mt : Mat) (a : Access)
    (h : Mat.modes.contains a = true) :
    Mat.call mt [] a = .ok { mt with maps := some [], access := some a } := by
  simp [Mat.call, Mat.checkMaps, h]

/-- Witness for C10 at the concrete Mat with access READ. -/
theorem mat_call_empty_maps_witness :
    Mat.call exMat [] READ =
      .ok { exMat with maps := some [], access := some READ } :=
  mat_call_empty_maps exMat READ (by decide)

/-- C3: on an unindexed Map, indexed(i) with 0 ≤ i < dim succeeds and the
result is a copy whose index field equals i; on a Map whose index is already
set, indexed always fails; and on an unindexed Map, indexed with i outside
[0, dim) always fails. -/
theorem map_indexed_spec (m : Map) (i : Int) :
    (m.index = none → 0 ≤ i → i < m.dim →
      Map.indexed m i = .ok { m with index := some i }) ∧
    (∀ j, m.index = some j → ∃ e, Map.indexed m i = .error e) ∧
    (m.index = none → (i < 0 ∨ m.dim ≤ i) →
      ∃ e, Map.indexed m i = .error e) := by
  refine ⟨?_, ?_, ?_⟩
  · intro h0 h1 h2
    simp [Map.indexed, h0, h1, h2]
  · intro j hj
    exact ⟨.assertionError "Map has already been indexed",
      by simp [Map.indexed, hj]⟩
  · intro h0 hr
    refine ⟨.assertionError "Index must be in interval [0,dim-1]", ?_⟩
    have hc : ¬ (0 ≤ i ∧ i < m.dim) := by omega
    simp [Map.indexed, h0, hc]

/-- Witness for C3: at the concrete exMap (dim 2), indexing at 1 succeeds
with index 1, indexing the result again fails, and indexing at 2 fails. -/
theorem map_indexed_spec_witness :
    Map.indexed exMap 1 = .ok { exMap with index := some 1 } ∧
    (∃ e, Map.indexed { exMap with index := some 1 } 0 = .error e) ∧
    (∃ e, Map.indexed exMap 2 = .error e) :=
  ⟨(map_indexed_spec exMap 1).1 rfl (by decide) (by decide),
   (map_indexed_spec { exMap with index := some 1 } 0).2.1 1 rfl,
   (map_indexed_spec exMap 2).2.2 rfl (by decide)⟩

/-- The copy of exMap indexed at component 0, as returned by
Map.indexed exMap 0. -/
def exMapIdx0 : Map := { exMap with index := some 0 }

/-- C5 counterexample: the claim says the rendering of a Map indexed at any
column i, including i = 0, shows component i.  But Map.__str__ guards the
component suffix with the truthiness of self._index, and the int 0 is falsy
in Python, so indexing exMap at 0 succeeds yet renders exactly like the
unindexed exMap, with no component shown. -/
theorem map_str_component_zero_counterexample :
    Map.indexed exMap 0 = .ok exMapIdx0 ∧
    Map.str exMapIdx0 = Map.str exMap :=
  ⟨rfl, rfl⟩

/-- C5 amended: for a Map successfully indexed at a column i ≥ 1 the
rendering appends the component suffix for i; indexing at column 0 succeeds
but renders identically to the unindexed Map (the int 0 is falsy, so the
suffix is omitted); and the rendering of a Dat whose map and access fields
are set shows the attached map and access mode. -/
theorem str_renderings_amended (m : Map) (i : Int) (d : Dat) (mp : Map)
    (a : Access) :
    (m.index = none → 1 ≤ i → i < m.dim →
      Map.indexed m i = .ok { m with index := some i } ∧
      Map.str { m with index := some i } =
        Map.str m ++ (" and component " ++ toString i)) ∧
    (m.index = none → 0 < m.dim →
      Map.indexed m 0 = .ok { m with index := some 0 } ∧
      Map.str { m with index := some 0 } = Map.str m) ∧
    (d.map = some mp → d.access = some a →
      ∃ p, Dat.str d =
        p ++ (" associated with (" ++ Map.str mp ++ ") in mode " ++
          Access.str a)) := by
  refine ⟨?_, ?_, ?_⟩
  · intro h0 h1 h2
    have hne : i ≠ 0 := by omega
    refine ⟨by simp [Map.indexed, h0]; omega, ?_⟩
    simp [Map.str, h0, hne]
  · intro h0 hd
    refine ⟨by simp [Map.indexed, h0, hd], ?_⟩
    simp [Map.str, h0]
  · intro hm ha
    refine ⟨"OP2 Dat: " ++ d.name ++ " on (" ++ Set.str d.set ++
      ") with dim " ++ toString d.dim ++ " and datatype " ++ d.datatype, ?_⟩
    simp [Dat.str, hm, ha]

/-- Witness for C5 amended: at exMap with column 1 and column 0, and at the
concrete bound Dat record. -/
theorem str_renderings_amended_witness :
    (Map.indexed exMap 1 = .ok { exMap with index := some 1 } ∧
      Map.str { exMap with index := some 1 } =
        Map.str exMap ++ (" and component " ++ toString (1 : Int))) ∧
    (Map.indexed exMap 0 = .ok exMapIdx0 ∧
      Map.str exMapIdx0 = Map.str exMap) ∧
    (∃ p, Dat.str { exDat with map := some exMap, access := some READ } =
      p ++ (" associated with (" ++ Map.str exMap ++ ") in mode " ++
        Access.str READ)) :=
  ⟨(str_renderings_amended exMap 1 exDat exMap READ).1 rfl (by decide)
      (by decide),
   (str_renderings_amended exMap 0 exDat exMap READ).2.1 rfl (by decide),
   (str_renderings_amended exMap 0
      { exDat with map := some exMap, access := some READ } exMap READ).2.2
      rfl rfl⟩

/-- C8 counterexample: the claim says that whenever the coerced sequence
length differs from a given required length, as_tuple fails.  But Python
guards the length assert with the truthiness of length, and the int 0 is
falsy: as_tuple([1], length=0) skips the check and returns (1,) even though
the coerced length 1 differs from the given length 0. -/
theorem as_tuple_length_zero_counterexample :
    as_tuple (Item.iterable [(1 : Int)]) (none : Option (Int → Bool))
        (some 0) = .ok [1] ∧
    (([(1 : Int)].length : Int) ≠ 0) :=
  ⟨rfl, by decide⟩

/-- C8 amended: as_tuple(None) yields the empty sequence; a non-iterable
scalar with a positive given length n yields n copies of the scalar; an
iterable whose item count equals the given length yields the tuple of its
items; and for every NONZERO given length that the coerced sequence does
not match, as_tuple fails (a given length of 0 is falsy in Python, so the
length check is skipped and the coerced sequence is returned as is). -/
theorem as_tuple_spec_amended {α : Type} (x : α) (xs : List α) (n : Int) :
    (as_tuple (Item.noneV : Item α) none none = .ok []) ∧
    (0 < n → as_tuple (Item.scalar x) none (some n) =
      .ok (List.replicate n.toNat x)) ∧
    ((xs.length : Int) = n →
      as_tuple (Item.iterable xs) none (some n) = .ok xs) ∧
    (n ≠ 0 → (xs.length : Int) ≠ n →
      ∃ e, as_tuple (Item.iterable xs) none (some n) = .error e) := by
  refine ⟨rfl, ?_, ?_, ?_⟩
  · intro hn
    have hne : n ≠ 0 := by omega
    have hlen : ((List.replicate n.toNat x).length : Int) = n := by
      simp; omega
    simp [as_tuple, lengthTruthy, lengthOr1, hne, hlen]
    omega
  · intro hlen
    by_cases hne : n = 0
    · subst hne
      simp [as_tuple, lengthTruthy]
    · simp [as_tuple, lengthTruthy, hne, hlen]
  · intro hne hdiff
    refine ⟨.assertionError "Tuple needs to be of length", ?_⟩
    simp [as_tuple, lengthTruthy, hne, hdiff]

/-- Witness for C8 amended: the scalar 5 replicated to length 3, the
iterable of three items with length 3, and the failing iterable of two
items against required length 3. -/
theorem as_tuple_spec_amended_witness :
    (as_tuple (Item.scalar (5 : Int)) none (some 3) = .ok [5, 5, 5]) ∧
    (as_tuple (Item.iterable [(1 : Int), 2, 3]) none (some 3) =
      .ok [1, 2, 3]) ∧
    (∃ e, as_tuple (Item.iterable [(1 : Int), 2]) none (some 3) =
      .error e) :=
  ⟨(as_tuple_spec_amended (5 : Int) [] 3).2.1 (by decide),
   (as_tuple_spec_amended (1 : Int) [(1 : Int), 2, 3] 3).2.2.1 (by decide),
   (as_tuple_spec_amended (1 : Int) [(1 : Int), 2] 3).2.2.2 (by decide)
     (by decide)⟩

/-- Helper for the frame property: allocating a fresh object at the end of
the heap neither aliases a valid receiver address nor changes what that
address holds. -/
theorem heap_alloc_frame {α : Type} (h : List α) (r : Nat) (d x : α)
    (hr : h[r]? = some d) :
    h.length ≠ r ∧ (h ++ [x])[r]? = some d := by
  have hlt : r < h.length := by
    by_contra hge
    rw [List.getElem?_eq_none (by omega)] at hr
    exact Option.noConfusion hr
  exact ⟨by omega, by rw [List.getElem?_append_left hlt]; exact hr⟩

/-- C7: the binding and indexing operations, in heap form, never mutate
their receiver: whenever Dat.__call__, Mat.__call__, Global.__call__ or
Map.indexed returns successfully on the object at address r, the returned
address is distinct from r (a new object) and address r still holds exactly
the receiver it held before, every field unchanged. -/
theorem bind_ops_no_mutation (hD : List Dat) (hM : List Mat)
    (hG : List Global) (hP : List Map) (r : Nat) (m : Map)
    (maps : List Map) (a : Access) (i : Int) :
    (∀ p, Dat.callH hD r m a = .ok p →
      p.2 ≠ r ∧ p.1[r]? = hD[r]?) ∧
    (∀ p, Mat.callH hM r maps a = .ok p →
      p.2 ≠ r ∧ p.1[r]? = hM[r]?) ∧
    (∀ p, Global.callH hG r a = .ok p →
      p.2 ≠ r ∧ p.1[r]? = hG[r]?) ∧
    (∀ p, Map.indexedH hP r i = .ok p →
      p.2 ≠ r ∧ p.1[r]? = hP[r]?) := by
  refine ⟨?_, ?_, ?_, ?_⟩
  · intro p hp
    cases hget : hD[r]? with
    | none => simp [Dat.callH, hget] at hp
    | some d =>
        cases hcall : Dat.call d m a with
        | error e => simp [Dat.callH, hget, hcall] at hp
        | ok arg =>
            simp [Dat.callH, hget, hcall] at hp
            subst hp
            exact heap_alloc_frame hD r d arg hget
  · intro p hp
    cases hget : hM[r]? with
    | none => simp [Mat.callH, hget] at hp
    | some mt =>
        cases hcall : Mat.call mt maps a with
        | error e => simp [Mat.callH, hget, hcall] at hp
        | ok arg =>
            simp [Mat.callH, hget, hcall] at hp
            subst hp
            exact heap_alloc_frame hM r mt arg hget
  · intro p hp
    cases hget : hG[r]? with
    | none => simp [Global.callH, hget] at hp
    | some g =>
        cases hcall : Global.call g a with
        | error e => simp [Global.callH, hget, hcall] at hp
        | ok arg =>
            simp [Global.callH, hget, hcall] at hp
            subst hp
            exact heap_alloc_frame hG r g arg hget
  · intro p hp
    cases hget : hP[r]? with
    | none => simp [Map.indexedH, hget] at hp
    | some mm =>
        cases hcall : Map.indexed mm i with
        | error e => simp [Map.indexedH, hget, hcall] at hp
        | ok indexed =>
            simp [Map.indexedH, hget, hcall] at hp
            subst hp
            exact heap_alloc_frame hP r mm indexed hget

/-- Witness for C7: on a one-object heap holding exGlobal, a successful
Global call returns the fresh address 1 ≠ 0 and leaves address 0 holding
exGlobal; likewise a successful Map.indexed on a one-object heap holding
exMap leaves address 0 holding exMap. -/
theorem bind_ops_no_mutation_witness :
    ((1 : Nat) ≠ 0 ∧
      ([exGlobal, { exGlobal with access := some READ }] : List Global)[0]?
        = ([exGlobal] : List Global)[0]?) ∧
    ((1 : Nat) ≠ 0 ∧
      ([exMap, { exMap with index := some 1 }] : List Map)[0]?
        = ([exMap] : List Map)[0]?) :=
  ⟨(bind_ops_no_mutation [] [] [exGlobal] [exMap] 0 exMap [] READ 1).2.2.1
      ([exGlobal, { exGlobal with access := some READ }], 1) rfl,
   (bind_ops_no_mutation [] [] [exGlobal] [exMap] 0 exMap [] READ 1).2.2.2
      ([exMap, { exMap with index := some 1 }], 1) rfl⟩

end PyOP2
